import Mathlib

set_option maxRecDepth 100000

/-!
Verification development for the purenes NES emulator core.

Each data type and operation below is a shallow embedding of the
corresponding Python class or method from the purenes sources
(src/purenes/cpu.py, src/purenes/ppu.py, src/purenes/rom.py).
Python machine integers are modelled as Nat (or Int where the source
value can go negative), Python exceptions as Except String, Python
lists as List Nat.  The ctypes bit-field unions are modelled as
structures of their fields together with an explicit packed view
(the reg field of the union), with truncation applied exactly where
the ctypes layer truncates on assignment.
-/

namespace Purenes

/-- Error message raised by CPUBus.read and CPUBus.write for an address
outside the handled range.  The source formats the offending address
into the message; the claims only depend on the failure itself. -/
def INVALID_CPU_ADDRESS_MSG : String := "Invalid address provided. Address should be between 0x0000 - 0xFFFF"

/-- CPUBus._RAM_ADDRESS_MASK from src/purenes/cpu.py line 85.
Note the source value is 0x1FF, not 0x7FF. -/
def RAM_ADDRESS_MASK : Nat := 0x1FF

/-- The NES CPU bus (class CPUBus of src/purenes/cpu.py).  Its only
internal device in the source is the 2 KiB internal RAM; no PPU or
Cartridge is connected. -/
structure CPUBus where
  ram : List Nat
deriving DecidableEq

/-- CPUBus.__init__: a 2 KiB array of 0x00 values. -/
def CPUBus.init : CPUBus := ⟨List.replicate 0x800 0x00⟩

/-- CPUBus.read.  Addresses are taken as Int because the stack
arithmetic of the CPU in the source can drive Python ints negative.  The source
returns ram addressed through the mask for 0x0000-0x1FFF and raises
for every other address. -/
def CPUBus.read (b : CPUBus) (address : Int) : Except String Nat :=
  if 0 ≤ address ∧ address ≤ 0x1FFF then
    Except.ok (b.ram.getD (Int.land address (Int.ofNat RAM_ADDRESS_MASK)).toNat 0)
  else
    Except.error INVALID_CPU_ADDRESS_MSG

/-- CPUBus.write, same address decoding as CPUBus.read. -/
def CPUBus.write (b : CPUBus) (address : Int) (data : Nat) : Except String CPUBus :=
  if 0 ≤ address ∧ address ≤ 0x1FFF then
    Except.ok ⟨b.ram.set (Int.land address (Int.ofNat RAM_ADDRESS_MASK)).toNat data⟩
  else
    Except.error INVALID_CPU_ADDRESS_MSG

/-- The CPU status register P (class CPUStatus of src/purenes/cpu.py):
a ctypes union of eight one-bit fields with an 8-bit reg view. -/
structure CPUStatus where
  carry : Bool
  zero : Bool
  interrupt_disable : Bool
  decimal : Bool
  brk : Bool
  na : Bool
  overflow : Bool
  negative : Bool
deriving DecidableEq

/-- The packed byte view status.reg of the union (LSB first:
C Z I D B U V N). -/
def CPUStatus.reg (p : CPUStatus) : Nat :=
  p.carry.toNat + 2 * p.zero.toNat + 4 * p.interrupt_disable.toNat +
    8 * p.decimal.toNat + 16 * p.brk.toNat + 32 * p.na.toNat +
    64 * p.overflow.toNat + 128 * p.negative.toNat

/-- Assignment to status.reg: the byte is unpacked into the eight
one-bit fields (bits above bit 7 are discarded by the c_uint8 view). -/
def CPUStatus.ofReg (v : Nat) : CPUStatus :=
  ⟨v.testBit 0, v.testBit 1, v.testBit 2, v.testBit 3,
   v.testBit 4, v.testBit 5, v.testBit 6, v.testBit 7⟩

/-- The CPU state (class CPU of src/purenes/cpu.py) together with its
connected CPUBus.  The stack pointer s is an Int because the source
decrements it as a plain Python int.  operation_value is kept as Nat:
the only source path that makes it negative (relative addressing for
branches) is outside the instruction subset modelled here. -/
structure CPU where
  a : Nat
  x : Nat
  y : Nat
  pc : Nat
  s : Int
  status : CPUStatus
  opcode : Nat
  operation_value : Nat
  effective_address : Nat
  remaining_cycles : Int
  bus : CPUBus
deriving DecidableEq

/-- CPU._push_to_stack: write the byte to 0x0100 | s, then decrement s. -/
def CPU.push_to_stack (c : CPU) (data : Nat) : Except String CPU :=
  match c.bus.write (Int.lor (Int.ofNat 0x0100) c.s) data with
  | Except.error e => Except.error e
  | Except.ok bus => Except.ok { c with bus := bus, s := c.s - 1 }

/-- CPU._pull_from_stack: read the byte at 0x0100 | s, then increment s.
The source reads before incrementing. -/
def CPU.pull_from_stack (c : CPU) : Except String (Nat × CPU) :=
  match c.bus.read (Int.lor (Int.ofNat 0x0100) c.s) with
  | Except.error e => Except.error e
  | Except.ok data => Except.ok (data, { c with s := c.s + 1 })

/-- CPU._set_negative_flag: negative is set when bit 7 of the value is 1. -/
def CPU.set_negative_flag (st : CPUStatus) (value : Nat) : CPUStatus :=
  { st with negative := decide ((value &&& 0x80) ≠ 0x00) }

/-- CPU._set_zero_flag: zero is set when the value is 0. -/
def CPU.set_zero_flag (st : CPUStatus) (value : Nat) : CPUStatus :=
  { st with zero := decide (value = 0x00) }

/-- CPU._set_overflow_flag: overflow is set when the sign bits of the
inputs agree and differ from the sign bit of the result. -/
def CPU.set_overflow_flag (st : CPUStatus) (x y result : Nat) : CPUStatus :=
  let input_signs_are_the_same : Bool := decide ((x ^^^ y) &&& 0x80 = 0)
  let input_and_result_signs_differ : Bool := decide ((x ^^^ result) &&& 0x80 ≠ 0)
  { st with overflow := input_signs_are_the_same && input_and_result_signs_differ }

/-- CPU._ADC: add operation_value and carry to the accumulator, setting
C, V, N and Z. -/
def CPU.ADC (c : CPU) : CPU :=
  let result := c.a + c.operation_value + c.status.carry.toNat
  let st := { c.status with carry := decide (0xFF < result) }
  let st := CPU.set_overflow_flag st c.a c.operation_value result
  let a := result &&& 0xFF
  let st := CPU.set_negative_flag st a
  let st := CPU.set_zero_flag st a
  { c with a := a, status := st }

/-- CPU._PHP: force the brk flag set, push status.reg, then clear brk. -/
def CPU.PHP (c : CPU) : Except String CPU :=
  let c := { c with status := { c.status with brk := true } }
  match c.push_to_stack c.status.reg with
  | Except.error e => Except.error e
  | Except.ok c => Except.ok { c with status := { c.status with brk := false } }

/-- CPU._PLA: pull the accumulator from the stack and set N and Z. -/
def CPU.PLA (c : CPU) : Except String CPU :=
  match c.pull_from_stack with
  | Except.error e => Except.error e
  | Except.ok (data, c) =>
    let c := { c with a := data }
    Except.ok { c with status := CPU.set_zero_flag (CPU.set_negative_flag c.status c.a) c.a }

/-- CPU._PLP: pull the processor status from the stack. -/
def CPU.PLP (c : CPU) : Except String CPU :=
  match c.pull_from_stack with
  | Except.error e => Except.error e
  | Except.ok (data, c) => Except.ok { c with status := CPUStatus.ofReg data }

/-- A zeroed CPU over a fresh bus, used to build concrete test states. -/
def CPU.zeroed : CPU :=
  { a := 0, x := 0, y := 0, pc := 0, s := 0,
    status := CPUStatus.ofReg 0, opcode := 0, operation_value := 0,
    effective_address := 0, remaining_cycles := 0, bus := CPUBus.init }

deriving instance DecidableEq for Except

/-- Error message raised by PPUBus.read and PPUBus.write for an address
outside the handled range (the source formats the address into it). -/
def INVALID_PPU_ADDRESS_MSG : String := "Invalid address provided. Address should be between 0x0000 - 0x3FFF"

/-- PPUBus._VRAM_ADDRESS_MASK of src/purenes/ppu.py. -/
def VRAM_ADDRESS_MASK : Nat := 0x07FF

/-- PPUBus._PALETTE_ADDRESS_MASK of src/purenes/ppu.py. -/
def PALETTE_ADDRESS_MASK : Nat := 0x1F

/-- The PPU bus (class PPUBus of src/purenes/ppu.py): 2 KiB nametable
VRAM and the 32-byte palette RAM.  Addresses below 0x2000 (pattern
tables) are not handled and raise. -/
structure PPUBus where
  vram : List Nat
  vram_palette : List Nat
deriving DecidableEq

/-- PPUBus.__init__. -/
def PPUBus.init : PPUBus := ⟨List.replicate 0x800 0x00, List.replicate 0x20 0x00⟩

/-- PPUBus.read: nametable VRAM for 0x2000-0x2FFF, palette RAM with the
0x3F10/14/18/1C fold for 0x3F00-0x3FFF, error otherwise. -/
def PPUBus.read (b : PPUBus) (address : Nat) : Except String Nat :=
  if 0x2000 ≤ address ∧ address ≤ 0x2FFF then
    Except.ok (b.vram.getD (address &&& VRAM_ADDRESS_MASK) 0)
  else if 0x3F00 ≤ address ∧ address ≤ 0x3FFF then
    let address := address - (if address &&& 0x13 = 0x10 then 0x10 else 0)
    Except.ok (b.vram_palette.getD (address &&& PALETTE_ADDRESS_MASK) 0)
  else
    Except.error INVALID_PPU_ADDRESS_MSG

/-- PPUBus.write, same address decoding as PPUBus.read. -/
def PPUBus.write (b : PPUBus) (address : Nat) (data : Nat) : Except String PPUBus :=
  if 0x2000 ≤ address ∧ address ≤ 0x2FFF then
    Except.ok { b with vram := b.vram.set (address &&& VRAM_ADDRESS_MASK) data }
  else if 0x3F00 ≤ address ∧ address ≤ 0x3FFF then
    let address := address - (if address &&& 0x13 = 0x10 then 0x10 else 0)
    Except.ok { b with vram_palette := b.vram_palette.set (address &&& PALETTE_ADDRESS_MASK) data }
  else
    Except.error INVALID_PPU_ADDRESS_MSG

/-- The loopy VRAM address register (class _Address of src/purenes/ppu.py):
a ctypes union of a 15-bit bit-field structure (coarse_x:5, coarse_y:5,
nt_select_x:1, nt_select_y:1, fine_y:3) with a 16-bit reg view.  The
union is modelled as the structure of its fields plus the padding bit
(bit 15 of the 16-bit storage); reg and setReg below are the packed
view and its assignment. -/
structure Loopy where
  coarse_x : Nat
  coarse_y : Nat
  nt_select_x : Nat
  nt_select_y : Nat
  fine_y : Nat
  pad : Nat
deriving DecidableEq

/-- The 16-bit packed view v.reg of the loopy union. -/
def Loopy.reg (l : Loopy) : Nat :=
  l.coarse_x + 32 * l.coarse_y + 1024 * l.nt_select_x + 2048 * l.nt_select_y +
    4096 * l.fine_y + 32768 * l.pad

/-- Assignment to v.reg: the 16-bit value is unpacked into the fields
(the c_uint16 storage discards bits above bit 15). -/
def Loopy.setReg (v : Nat) : Loopy :=
  ⟨v % 32, v / 32 % 32, v / 1024 % 2, v / 2048 % 2, v / 4096 % 8, v / 32768 % 2⟩

/-- PPUCTRL flag vram_address_increment (bit 2 of the $2000 register). -/
def Ctrl.vram_address_increment (c : Nat) : Nat := c / 4 % 2

/-- PPUCTRL flag background_pt_address (bit 4 of the $2000 register). -/
def Ctrl.background_pt_address (c : Nat) : Nat := c / 16 % 2

/-- The PPU state (class PPU of src/purenes/ppu.py).  The control, mask
and status unions are kept as their 8-bit reg values (their flags are
read through the Ctrl accessors above); the loopy registers use the
Loopy structure.  The connected PPU bus is passed to the operations
as a read function, mirroring the delegation through self._ppu_bus. -/
structure PPU where
  control : Nat
  mask : Nat
  status : Nat
  vram : Loopy
  vram_temp : Loopy
  fine_x : Nat
  write_latch : Nat
  data_read_buffer : Nat
  nametable_latch : Nat
  palette_latch : Nat
  pt_address : Nat
  pt_latch_lo : Nat
  pt_latch_hi : Nat
  pt_shift_hi : Nat
  pt_shift_lo : Nat
  at_shift_hi : Nat
  at_shift_lo : Nat
  scanline : Int
  cycle : Int
deriving DecidableEq

/-- PPU._load_shift_registers.  Note the source computes the new
at_shift_lo from the freshly assigned at_shift_hi, not from the old
at_shift_lo. -/
def PPU.load_shift_registers (p : PPU) : PPU :=
  let pt_shift_hi := (p.pt_shift_hi &&& 0xFF00) ||| p.pt_latch_hi
  let pt_shift_lo := (p.pt_shift_lo &&& 0xFF00) ||| p.pt_latch_lo
  let at_shift_hi := (p.at_shift_hi &&& 0xFF00) |||
    (if p.palette_latch &&& 0x02 ≠ 0 then 0xFF else 0x00)
  let at_shift_lo := (at_shift_hi &&& 0xFF00) |||
    (if p.palette_latch &&& 0x01 ≠ 0 then 0xFF else 0x00)
  { p with pt_shift_hi := pt_shift_hi, pt_shift_lo := pt_shift_lo,
           at_shift_hi := at_shift_hi, at_shift_lo := at_shift_lo }

/-- PPU._shift_background_registers: shift all four background shift
registers left by one (the source applies no width mask here). -/
def PPU.shift_background_registers (p : PPU) : PPU :=
  { p with pt_shift_hi := p.pt_shift_hi <<< 1, pt_shift_lo := p.pt_shift_lo <<< 1,
           at_shift_hi := p.at_shift_hi <<< 1, at_shift_lo := p.at_shift_lo <<< 1 }

/-- PPU._increment_coarse_x.  The explicit mod operations mirror the
truncation that the ctypes bit-field performs on assignment. -/
def PPU.increment_coarse_x (p : PPU) : PPU :=
  if p.vram.coarse_x = 31 then
    { p with vram :=
        { p.vram with coarse_x := 0, nt_select_x := (p.vram.nt_select_x ^^^ 1) % 2 } }
  else
    { p with vram := { p.vram with coarse_x := (p.vram.coarse_x + 1) % 32 } }

/-- PPU._increment_y. -/
def PPU.increment_y (p : PPU) : PPU :=
  if p.vram.fine_y < 7 then
    { p with vram := { p.vram with fine_y := (p.vram.fine_y + 1) % 8 } }
  else
    let v := { p.vram with fine_y := 0 }
    if v.coarse_y = 29 then
      { p with vram :=
          { v with coarse_y := 0, nt_select_y := (v.nt_select_y ^^^ 1) % 2 } }
    else
      { p with vram := { v with coarse_y := (v.coarse_y + 1) % 32 } }

/-- PPU._increment_cycle: advance the cycle counter, wrapping to the
next scanline after cycle 340 and to the pre-render scanline after
scanline 260. -/
def PPU.increment_cycle (p : PPU) : PPU :=
  if p.cycle = 340 then
    { p with cycle := 0,
             scanline := if p.scanline < 260 then p.scanline + 1 else -1 }
  else
    { p with cycle := p.cycle + 1 }

/-- PPU.clock of src/purenes/ppu.py, with the connected bus passed as
the read function used by self._read.  On a pre-render or visible
scanline the cycle-257 horizontal reload runs first, then the fetch
stage selected by (cycle - 1) % 8 inside the two fetch windows, and
finally the cycle counter advances. -/
def PPU.clock (bus : Nat → Except String Nat) (p : PPU) : Except String PPU :=
  let cycle := p.cycle
  let scanline := p.scanline
  let step : Except String PPU :=
    if -1 ≤ scanline ∧ scanline ≤ 239 then
      let p :=
        if cycle = 257 then
          PPU.load_shift_registers
            { p with vram := { p.vram with coarse_x := p.vram_temp.coarse_x % 32 } }
        else p
      if (1 ≤ cycle ∧ cycle ≤ 256) ∨ (321 ≤ cycle ∧ cycle ≤ 340) then
        let p := PPU.shift_background_registers p
        let rendering_cycle := (cycle - 1) % 8
        if rendering_cycle = 0 then
          let p := PPU.load_shift_registers p
          match bus (0x2000 ||| (p.vram.reg &&& 0x0FFF)) with
          | Except.error e => Except.error e
          | Except.ok nt => Except.ok { p with nametable_latch := nt }
        else if rendering_cycle = 2 then
          match bus (0x23C0 ||| (p.vram.reg &&& 0x0C00) |||
                     (p.vram.coarse_y / 4 * 8) ||| (p.vram.coarse_x / 4)) with
          | Except.error e => Except.error e
          | Except.ok attr_value =>
            let attr_value := if 2 ≤ p.vram.coarse_y % 4 then attr_value >>> 4 else attr_value
            let attr_value := if 2 ≤ p.vram.coarse_x % 4 then attr_value >>> 2 else attr_value
            Except.ok { p with palette_latch := attr_value &&& 0x03 }
        else if rendering_cycle = 4 then
          match bus p.nametable_latch with
          | Except.error e => Except.error e
          | Except.ok nt_value =>
            let pt_address := Ctrl.background_pt_address p.control <<< 12 |||
              nt_value <<< 4 ||| p.vram.fine_y
            match bus pt_address with
            | Except.error e => Except.error e
            | Except.ok lo => Except.ok { p with pt_address := pt_address, pt_latch_lo := lo }
        else if rendering_cycle = 6 then
          match bus (p.pt_address + 8) with
          | Except.error e => Except.error e
          | Except.ok hi => Except.ok { p with pt_latch_hi := hi }
        else if rendering_cycle = 7 then
          Except.ok (if cycle = 256 then PPU.increment_y p else PPU.increment_coarse_x p)
        else Except.ok p
      else Except.ok p
    else Except.ok p
  match step with
  | Except.error e => Except.error e
  | Except.ok p => Except.ok (PPU.increment_cycle p)

/-- PPU.read of src/purenes/ppu.py: the CPU-facing register read for
$2000-$3FFF (register index = address % 8).  The Python method falls
through with None for unhandled registers, modelled as none. -/
def PPU.reg_read (bus : Nat → Except String Nat) (p : PPU) (address : Nat) :
    Except String (Option Nat × PPU) :=
  if 0x2000 ≤ address ∧ address ≤ 0x3FFF then
    let _address := address % 8
    if _address = 0x0002 then
      Except.ok (some p.status, { p with write_latch := 0 })
    else if _address = 0x0007 then
      let address_increment := if Ctrl.vram_address_increment p.control = 1 then 32 else 1
      let data := p.data_read_buffer
      match bus p.vram.reg with
      | Except.error e => Except.error e
      | Except.ok buf =>
        let data := if 0x3F00 ≤ p.vram.reg then buf else data
        Except.ok (some data,
          { p with data_read_buffer := buf,
                   vram := Loopy.setReg (p.vram.reg + address_increment) })
    else
      Except.ok (none, p)
  else
    Except.ok (none, p)

/-- PPU.reset: clear the registers, latches and shift registers (the
counters and the nametable latch and pattern address cache are left
untouched, as in the source). -/
def PPU.reset (p : PPU) : PPU :=
  { p with control := 0x00, mask := 0x00, status := 0x00,
           vram := Loopy.setReg 0x00, vram_temp := Loopy.setReg 0x00,
           write_latch := 0x00, fine_x := 0x00, data_read_buffer := 0x00,
           palette_latch := 0x00, pt_latch_hi := 0x00, pt_latch_lo := 0x00,
           pt_shift_hi := 0x00, pt_shift_lo := 0x00,
           at_shift_hi := 0x00, at_shift_lo := 0x00 }

/-- A zeroed PPU used to build concrete test states. -/
def PPU.zeroed : PPU :=
  { control := 0, mask := 0, status := 0, vram := Loopy.setReg 0,
    vram_temp := Loopy.setReg 0, fine_x := 0, write_latch := 0,
    data_read_buffer := 0, nametable_latch := 0, palette_latch := 0,
    pt_address := 0, pt_latch_lo := 0, pt_latch_hi := 0,
    pt_shift_hi := 0, pt_shift_lo := 0, at_shift_hi := 0, at_shift_lo := 0,
    scanline := -1, cycle := 0 }

/-- Error message for an invalid iNES header. -/
def INVALID_INES_HEADER_MSG : String := "Invalid iNES Header. This is not a valid .nes file or this file format is unsupported."

/-- Error for indexing past the end of the ROM bytes; the source raises
IndexError here rather than RuntimeError. -/
def INDEX_ERROR_MSG : String := "byte index out of range"

/-- Nametable mirroring configuration (enum Mirroring of
src/purenes/rom.py). -/
inductive Mirroring where
  | horizontal : Mirroring
  | vertical : Mirroring
deriving DecidableEq

/-- The parsed iNES header (class Header of src/purenes/rom.py). -/
structure Header where
  prg_banks : Nat
  chr_banks : Nat
  prg_rom_size : Nat
  chr_rom_size : Nat
  nt_mirroring : Mirroring
  trainer : Nat
  mapper_id : Nat
deriving DecidableEq

/-- Header.__init__: check the four magic bytes of rom_data[0:16] and
populate the fields.  Note the source stores header[6] & 4 in trainer. -/
def Header.parse (rom_data : List Nat) : Except String Header :=
  let header := rom_data.take 16
  if header.length < 4 then Except.error INDEX_ERROR_MSG
  else if ¬ (header.getD 0 0 = 0x4E ∧ header.getD 1 0 = 0x45 ∧
             header.getD 2 0 = 0x53 ∧ header.getD 3 0 = 0x1A) then
    Except.error INVALID_INES_HEADER_MSG
  else if header.length < 8 then Except.error INDEX_ERROR_MSG
  else
    Except.ok
      { prg_banks := header.getD 4 0,
        chr_banks := header.getD 5 0,
        prg_rom_size := 16384 * header.getD 4 0,
        chr_rom_size := 8192 * header.getD 5 0,
        nt_mirroring := if header.getD 6 0 &&& 0x01 = 1 then Mirroring.vertical
                        else Mirroring.horizontal,
        trainer := header.getD 6 0 &&& 4,
        mapper_id := (header.getD 7 0 &&& 0xF0) ||| (header.getD 6 0 >>> 4) }

/-- A loaded ROM (class Rom of src/purenes/rom.py). -/
structure Rom where
  header : Header
  prg_rom : List Nat
  chr_rom : List Nat
deriving DecidableEq

/-- Rom.__init__: parse the header, then slice the PRG bytes starting
at 16 plus the 512-byte trainer offset (applied when the trainer field
is truthy) and the CHR bytes immediately after. -/
def Rom.init (rom_data : List Nat) : Except String Rom :=
  match Header.parse rom_data with
  | Except.error e => Except.error e
  | Except.ok header =>
    let trainer_offset := if header.trainer ≠ 0 then 512 else 0
    let prg_data_offset := 16 + trainer_offset
    let chr_data_offset := prg_data_offset + header.prg_rom_size
    Except.ok
      { header := header,
        prg_rom := (rom_data.drop prg_data_offset).take (chr_data_offset - prg_data_offset),
        chr_rom := (rom_data.drop chr_data_offset).take header.chr_rom_size }

/-! ## Helper lemmas shared across the claims -/

lemma int_lor_ofNat (m n : Nat) :
    Int.lor (Int.ofNat m) (Int.ofNat n) = Int.ofNat (m ||| n) := rfl

lemma int_land_ofNat (m n : Nat) :
    Int.land (Int.ofNat m) (Int.ofNat n) = Int.ofNat (m &&& n) := rfl

lemma int_toNat_ofNat (m : Nat) : (Int.ofNat m).toNat = m := rfl

lemma and_128_eq (z : Nat) : z &&& 0x80 = (z.testBit 7).toNat * 0x80 := by
  have h := Nat.and_two_pow z 7
  norm_num at h
  exact h

lemma and_128_ne_zero_iff (z : Nat) : z &&& 0x80 ≠ 0 ↔ z.testBit 7 = true := by
  rw [and_128_eq]
  cases h : z.testBit 7 <;> simp

lemma and_128_eq_zero_iff (z : Nat) : z &&& 0x80 = 0 ↔ z.testBit 7 = false := by
  rw [and_128_eq]
  cases h : z.testBit 7 <;> simp

lemma and_4_eq (z : Nat) : z &&& 4 = (z.testBit 2).toNat * 4 := by
  have h := Nat.and_two_pow z 2
  norm_num at h
  exact h

/-- The two-sided overflow condition of CPU._set_overflow_flag agrees
with the single bitwise formula of the specification (with the byte
complement written as xor with 0xFF). -/
lemma overflow_formula_equiv (u w : Nat) :
    ((u ^^^ 0xFF) &&& w &&& 0x80 ≠ 0) ↔ (u &&& 0x80 = 0 ∧ w &&& 0x80 ≠ 0) := by
  rw [and_128_ne_zero_iff, and_128_eq_zero_iff, and_128_ne_zero_iff]
  rw [Nat.testBit_and, Nat.testBit_xor]
  have hff : (0xFF : Nat).testBit 7 = true := by decide
  rw [hff]
  cases hu : u.testBit 7 <;> cases hw : w.testBit 7 <;> simp

lemma Loopy.reg_setReg (v : Nat) : (Loopy.setReg v).reg = v % 65536 := by
  simp only [Loopy.setReg, Loopy.reg]
  omega

/-! ## Concrete states used by counterexamples and bug demonstrations -/

/-- A CPU at stack pointer 0xFD over a fresh bus, for claim C4. -/
def c4_cpu : CPU := { CPU.zeroed with s := 0xFD }

/-- A PPU at scanline 0, cycle 5 (fetch stage 4) with a latched
nametable byte 0x42 and background pattern table 1, for claim C3. -/
def c3_ppu : PPU :=
  { PPU.zeroed with scanline := 0, cycle := 5,
                      nametable_latch := 0x42, control := 0x10 }

/-- A PPU at scanline 0, cycle 257 whose temporary address selects the
other horizontal nametable, for claim C6. -/
def c6_ppu : PPU :=
  { PPU.zeroed with scanline := 0, cycle := 257,
                      vram_temp := { Loopy.setReg 0 with nt_select_x := 1 } }

/-- A PPU whose two attribute shifters hold different high bytes, for
claim C7. -/
def c7_ppu : PPU :=
  { PPU.zeroed with at_shift_hi := 0x1234, at_shift_lo := 0x0034 }

/-- ROM bytes with a valid iNES magic and bit 2 of byte 6 set, for
claim C9. -/
def c9_rom_data : List Nat :=
  [0x4E, 0x45, 0x53, 0x1A, 0x01, 0x00, 0x04, 0x00,
   0x00, 0x00, 0x00, 0x00, 0x00, 0x00, 0x00, 0x00]

/-! ## Claim theorems -/

/-- Claim C1, counterexample: reads and writes at 0x2000 (a PPU
register address) and at 0x4020 (a cartridge address) fail on the
CPUBus even though both are at most 0xFFFF; nothing is forwarded to a
PPU or Cartridge, contradicting the claim that only addresses above
0xFFFF fail. -/
theorem claim_C1_counterexample :
    CPUBus.read CPUBus.init 0x2000 = Except.error INVALID_CPU_ADDRESS_MSG ∧
    CPUBus.write CPUBus.init 0x2000 0x01 = Except.error INVALID_CPU_ADDRESS_MSG ∧
    CPUBus.read CPUBus.init 0x4020 = Except.error INVALID_CPU_ADDRESS_MSG ∧
    CPUBus.write CPUBus.init 0xFFFF 0x01 = Except.error INVALID_CPU_ADDRESS_MSG := by
  exact ⟨rfl, rfl, rfl, rfl⟩

/-- Claim C3, bug demonstration: at fetch stage 4 the source performs
an additional PPU-bus read at the latched nametable byte instead of
using the byte itself.  Connected to its own PPUBus the clock fails
(the tile id 0x42 is below 0x2000), and under a bus that returns 0 the
cached pattern address is 0x1000, not the claimed
(background_pt_address << 12) | (nametable_latch << 4) | fine_y. -/
theorem claim_C3_pattern_fetch_bug :
    PPU.clock (PPUBus.read PPUBus.init) c3_ppu = Except.error INVALID_PPU_ADDRESS_MSG ∧
    (∃ p2, PPU.clock (fun _ => Except.ok 0) c3_ppu = Except.ok p2 ∧
      p2.pt_address = 0x1000 ∧
      p2.pt_address ≠ Ctrl.background_pt_address c3_ppu.control <<< 12 |||
        c3_ppu.nametable_latch <<< 4 ||| c3_ppu.vram.fine_y) := by
  refine ⟨by decide, _, rfl, by decide, by decide⟩

/-- Claim C4, bug demonstration: pushing 0x42 with stack pointer 0xFD
writes it at 0x01FD, but the immediately following pull reads address
0x01FC before incrementing s, so it returns 0x00 instead of the pushed
0x42 (the stack pointer does return to 0xFD). -/
theorem claim_C4_push_pull_bug :
    ∃ c1, CPU.push_to_stack c4_cpu 0x42 = Except.ok c1 ∧
      c1.s = 0xFC ∧
      CPU.pull_from_stack c1 = Except.ok (0x00, { c1 with s := 0xFD }) ∧
      (0x00 : Nat) ≠ 0x42 := by
  refine ⟨_, rfl, by decide, ?_, by decide⟩
  rfl

/-- Claim C6, counterexample: at cycle 257 of scanline 0 with
t.nt_select_x = 1 and v.nt_select_x = 0, the clock leaves
v.nt_select_x at 0; the horizontal nametable selection is not copied
from t to v. -/
theorem claim_C6_counterexample :
    ∃ p2, PPU.clock (fun _ => Except.ok 0) c6_ppu = Except.ok p2 ∧
      p2.vram.coarse_x = c6_ppu.vram_temp.coarse_x ∧
      c6_ppu.vram_temp.nt_select_x = 1 ∧
      p2.vram.nt_select_x = 0 ∧
      p2.vram.nt_select_x ≠ c6_ppu.vram_temp.nt_select_x := by
  refine ⟨_, rfl, by decide, by decide, by decide, by decide⟩

/-- Claim C7, bug demonstration: on a shift-register reload with
palette latch 0, at_shift_lo receives the high byte of at_shift_hi
(0x1200) rather than keeping its own high byte (0x0000): the second
assignment in PPU._load_shift_registers reads at_shift_hi. -/
theorem claim_C7_attribute_shift_bug :
    (PPU.load_shift_registers c7_ppu).at_shift_lo = 0x1200 ∧
    (c7_ppu.at_shift_lo &&& 0xFF00) ||| 0x00 = 0x0000 ∧
    (PPU.load_shift_registers c7_ppu).at_shift_lo ≠
      (c7_ppu.at_shift_lo &&& 0xFF00) ||| 0x00 := by
  exact ⟨by decide, by decide, by decide⟩

/-- Claim C9, counterexample: for a ROM whose header byte 6 has bit 2
set, the parsed trainer field is 4, not 512. -/
theorem claim_C9_counterexample :
    ∃ h, Header.parse c9_rom_data = Except.ok h ∧ h.trainer = 4 ∧ h.trainer ≠ 512 := by
  refine ⟨_, rfl, by decide, by decide⟩

/-- Claim C1 (amended): a CPUBus operation succeeds exactly on
addresses 0x0000-0x1FFF, which access the internal RAM (writes are
read back); every other address — including the PPU register range
0x2000-0x3FFF and the cartridge range 0x4020-0xFFFF, which the source
does not forward anywhere — fails with the bad-address error. -/
theorem claim_C1_amended (b : CPUBus) (a : Int) (v : Nat) (hlen : b.ram.length = 0x800) :
    ((∃ e, CPUBus.read b a = Except.error e) ↔ ¬ (0 ≤ a ∧ a ≤ 0x1FFF)) ∧
    ((∃ e, CPUBus.write b a v = Except.error e) ↔ ¬ (0 ≤ a ∧ a ≤ 0x1FFF)) ∧
    ((0 ≤ a ∧ a ≤ 0x1FFF) →
      ∃ b2, CPUBus.write b a v = Except.ok b2 ∧ CPUBus.read b2 a = Except.ok v) := by
  by_cases h : 0 ≤ a ∧ a ≤ 0x1FFF
  · refine ⟨by simp [CPUBus.read, h], by simp [CPUBus.write, h], fun _ => ?_⟩
    refine ⟨_, by rw [CPUBus.write, if_pos h], ?_⟩
    rw [CPUBus.read, if_pos h]
    obtain ⟨n, rfl⟩ : ∃ n : Nat, a = Int.ofNat n :=
      ⟨a.toNat, (Int.toNat_of_nonneg h.1).symm⟩
    rw [int_land_ofNat]
    have hidx : n &&& RAM_ADDRESS_MASK < b.ram.length := by
      have hle : n &&& RAM_ADDRESS_MASK ≤ RAM_ADDRESS_MASK := Nat.and_le_right
      have : RAM_ADDRESS_MASK < 0x800 := by decide
      omega
    simp only [int_toNat_ofNat, List.getD_eq_getElem?_getD]
    rw [List.getElem?_set_eq_of_lt _ hidx]
    rfl
  · refine ⟨by simp [CPUBus.read, h], by simp [CPUBus.write, h], fun hc => absurd hc h⟩

/-- Claim C1, witness: the amended characterisation applied to a fresh
bus at the RAM address 0x0005. -/
theorem claim_C1_witness :
    ∃ b2, CPUBus.write CPUBus.init 0x0005 0x42 = Except.ok b2 ∧
      CPUBus.read b2 0x0005 = Except.ok 0x42 :=
  (claim_C1_amended CPUBus.init 0x0005 0x42 (by simp [CPUBus.init])).2.2 (by decide)

/-- Claim C5: for a, op at most 0xFF and any carry, ADC stores
(a + op + c) & 0xFF in the accumulator, sets C exactly when the sum
exceeds 0xFF, sets V exactly when (a xor op xor 0xFF) & (a xor r) & 0x80
is nonzero (the byte complement of a xor op written as xor 0xFF), sets
N to bit 7 of the stored result and Z exactly when it is zero. -/
theorem claim_C5_adc (c : CPU) (ha : c.a ≤ 0xFF) (hop : c.operation_value ≤ 0xFF) :
    (CPU.ADC c).a = (c.a + c.operation_value + c.status.carry.toNat) &&& 0xFF ∧
    ((CPU.ADC c).status.carry = true ↔
      0xFF < c.a + c.operation_value + c.status.carry.toNat) ∧
    ((CPU.ADC c).status.overflow = true ↔
      ((c.a ^^^ c.operation_value) ^^^ 0xFF) &&&
        (c.a ^^^ (c.a + c.operation_value + c.status.carry.toNat)) &&& 0x80 ≠ 0) ∧
    ((CPU.ADC c).status.negative = true ↔ (CPU.ADC c).a &&& 0x80 ≠ 0) ∧
    ((CPU.ADC c).status.zero = true ↔ (CPU.ADC c).a = 0) := by
  refine ⟨rfl, ?_, ?_, ?_, ?_⟩
  · simp [CPU.ADC, CPU.set_overflow_flag, CPU.set_negative_flag, CPU.set_zero_flag]
  · rw [overflow_formula_equiv]
    simp [CPU.ADC, CPU.set_overflow_flag, CPU.set_negative_flag, CPU.set_zero_flag]
  · simp [CPU.ADC, CPU.set_overflow_flag, CPU.set_negative_flag, CPU.set_zero_flag]
  · simp [CPU.ADC, CPU.set_overflow_flag, CPU.set_negative_flag, CPU.set_zero_flag]

/-- Claim C5, witness: ADC at a = 0x50, op = 0x50, carry clear gives
accumulator 0xA0 with C = 0, V = 1, N = 1, Z = 0 (the overflow
scenario of the specification). -/
theorem claim_C5_witness :
    (CPU.ADC { CPU.zeroed with a := 0x50, operation_value := 0x50 }).a = 0xA0 ∧
    ((CPU.ADC { CPU.zeroed with a := 0x50, operation_value := 0x50 }).status.overflow = true ↔
      ((0x50 ^^^ 0x50) ^^^ 0xFF) &&& (0x50 ^^^ (0x50 + 0x50 + 0)) &&& 0x80 ≠ (0 : Nat)) := by
  have h := claim_C5_adc { CPU.zeroed with a := 0x50, operation_value := 0x50 }
    (by decide) (by decide)
  exact ⟨by decide, h.2.2.1⟩

/-- Claim C6 (amended): at cycle 257 of a pre-render or visible
scanline the clock copies t.coarse_x into v.coarse_x (so
v.coarse_x = t.coarse_x immediately afterwards), but v.nt_select_x is
left unchanged: the source does not copy t.nt_select_x (coarse_y and
fine_y are also untouched). -/
theorem claim_C6_amended (bus : Nat → Except String Nat) (p : PPU)
    (h1 : -1 ≤ p.scanline) (h2 : p.scanline ≤ 239) (h3 : p.cycle = 257)
    (h4 : p.vram_temp.coarse_x < 32) :
    ∃ p2, PPU.clock bus p = Except.ok p2 ∧
      p2.vram.coarse_x = p.vram_temp.coarse_x ∧
      p2.vram.nt_select_x = p.vram.nt_select_x ∧
      p2.vram.coarse_y = p.vram.coarse_y ∧
      p2.vram.fine_y = p.vram.fine_y := by
  have hstep : PPU.clock bus p =
      Except.ok (PPU.increment_cycle (PPU.load_shift_registers
        { p with vram := { p.vram with coarse_x := p.vram_temp.coarse_x % 32 } })) := by
    simp only [PPU.clock, h3]
    rw [if_pos ⟨h1, h2⟩]
    norm_num
  refine ⟨_, hstep, ?_, ?_, ?_, ?_⟩
  all_goals
    simp [PPU.increment_cycle, PPU.load_shift_registers, h3, Nat.mod_eq_of_lt h4]

/-- Claim C6, witness: the amended statement applied at a concrete
state with t.coarse_x = 5. -/
theorem claim_C6_witness :
    ∃ p2, PPU.clock (fun _ => Except.ok 0)
        { PPU.zeroed with scanline := 3, cycle := 257,
                            vram_temp := Loopy.setReg 5 } = Except.ok p2 ∧
      p2.vram.coarse_x = 5 := by
  obtain ⟨p2, hclock, hcx, -, -, -⟩ :=
    claim_C6_amended (fun _ => Except.ok 0)
      { PPU.zeroed with scanline := 3, cycle := 257, vram_temp := Loopy.setReg 5 }
      (by decide) (by decide) (by decide) (by decide)
  exact ⟨p2, hclock, hcx⟩

/-- The $2007 branch of PPU.reg_read below the palette range: the read
returns the old buffer, refills the buffer from the bus at the old
v.reg, and adds the configured increment to v.reg. -/
lemma reg_read_2007 (bus : Nat → Except String Nat) (p : PPU) (b : Nat)
    (hv : p.vram.reg < 0x3F00) (hb : bus p.vram.reg = Except.ok b) :
    PPU.reg_read bus p 0x2007 =
      Except.ok (some p.data_read_buffer,
        { p with data_read_buffer := b,
                 vram := Loopy.setReg (p.vram.reg +
                   (if Ctrl.vram_address_increment p.control = 1 then 32 else 1)) }) := by
  simp only [PPU.reg_read, hb]
  rw [if_pos (by decide), if_neg (by decide), if_pos (by decide),
      if_neg (Nat.not_le.mpr hv)]

/-- Claim C8: a $2007 register read with v.reg below 0x3F00 returns the
previous data_read_buffer, refills the buffer from the bus at the old
v.reg, and increments v.reg by 32 when control.vram_address_increment
is set, else by 1; consequently, starting from reset, three successive
reads over bus bytes b0, b1, b2 return the sequence 0, b0, b1. -/
theorem claim_C8_data_read_buffering (bus : Nat → Except String Nat) (p : PPU)
    (b b0 b1 b2 : Nat)
    (hv : p.vram.reg < 0x3F00) (hb : bus p.vram.reg = Except.ok b)
    (h0 : bus 0 = Except.ok b0) (h1 : bus 1 = Except.ok b1)
    (h2 : bus 2 = Except.ok b2) :
    (∃ p2, PPU.reg_read bus p 0x2007 = Except.ok (some p.data_read_buffer, p2) ∧
      p2.data_read_buffer = b ∧
      p2.vram.reg = p.vram.reg +
        (if Ctrl.vram_address_increment p.control = 1 then 32 else 1)) ∧
    (∃ q1 q2 q3, PPU.reg_read bus (PPU.reset p) 0x2007 = Except.ok (some 0, q1) ∧
      PPU.reg_read bus q1 0x2007 = Except.ok (some b0, q2) ∧
      PPU.reg_read bus q2 0x2007 = Except.ok (some b1, q3) ∧
      q3.data_read_buffer = b2) := by
  constructor
  · refine ⟨_, reg_read_2007 bus p b hv hb, rfl, ?_⟩
    rw [Loopy.reg_setReg]
    by_cases hi : Ctrl.vram_address_increment p.control = 1 <;> simp [hi] <;> omega
  · have hr0 : (PPU.reset p).vram.reg = 0 := by
      simp [PPU.reset, Loopy.reg_setReg]
    have e1 := reg_read_2007 bus (PPU.reset p) b0 (by rw [hr0]; omega) (by rw [hr0]; exact h0)
    rw [hr0] at e1
    have hd0 : (PPU.reset p).data_read_buffer = 0 := by simp [PPU.reset]
    have hi0 : Ctrl.vram_address_increment (PPU.reset p).control = 0 := by
      simp [PPU.reset, Ctrl.vram_address_increment]
    rw [hd0, hi0] at e1
    norm_num at e1
    set q1 : PPU := { PPU.reset p with data_read_buffer := b0, vram := Loopy.setReg 1 } with hq1
    have hr1 : q1.vram.reg = 1 := by simp [hq1, Loopy.reg_setReg]
    have e2 := reg_read_2007 bus q1 b1 (by rw [hr1]; omega) (by rw [hr1]; exact h1)
    rw [hr1] at e2
    have hd1 : q1.data_read_buffer = b0 := by simp [hq1]
    have hi1 : Ctrl.vram_address_increment q1.control = 0 := by
      simp [hq1, PPU.reset, Ctrl.vram_address_increment]
    rw [hd1, hi1] at e2
    norm_num at e2
    set q2 : PPU := { q1 with data_read_buffer := b1, vram := Loopy.setReg 2 } with hq2
    have hr2 : q2.vram.reg = 2 := by simp [hq2, Loopy.reg_setReg]
    have e3 := reg_read_2007 bus q2 b2 (by rw [hr2]; omega) (by rw [hr2]; exact h2)
    rw [hr2] at e3
    have hd2 : q2.data_read_buffer = b1 := by simp [hq2]
    have hi2 : Ctrl.vram_address_increment q2.control = 0 := by
      simp [hq2, hq1, PPU.reset, Ctrl.vram_address_increment]
    rw [hd2, hi2] at e3
    norm_num at e3
    exact ⟨q1, q2, _, e1, e2, e3, rfl⟩

/-- A PPU with a filled read buffer and v.reg in the nametable range,
used by the claim C8 witness. -/
def c8_ppu : PPU :=
  { PPU.zeroed with data_read_buffer := 0x77, vram := Loopy.setReg 0x2100 }

/-- Claim C8, witness: the buffering behaviour at a concrete state and
bus (the address-plus-five bus), with vertical increment mode off. -/
theorem claim_C8_witness :
    ∃ p2, PPU.reg_read (fun a => Except.ok (a + 5)) c8_ppu 0x2007 =
      Except.ok (some 0x77, p2) ∧
      p2.data_read_buffer = 0x2105 ∧
      p2.vram.reg = 0x2100 +
        (if Ctrl.vram_address_increment c8_ppu.control = 1 then 32 else 1) := by
  obtain ⟨⟨p2, hread, hbuf, hreg⟩, -⟩ :=
    claim_C8_data_read_buffering (fun a => Except.ok (a + 5)) c8_ppu
      0x2105 5 6 7 (by decide) (by decide) (by decide) (by decide) (by decide)
  refine ⟨p2, ?_, hbuf, ?_⟩
  · rw [hread]; rfl
  · rw [hreg]; rfl

lemma getD_take_16 (l : List Nat) (i : Nat) (h : i < 16) :
    (l.take 16).getD i 0 = l.getD i 0 := by
  simp only [List.getD_eq_getElem?_getD, List.getElem?_take_of_lt h]

/-- Claim C9 (amended): for a ROM with a valid iNES magic the parsed
trainer field is header byte 6 masked with 4 — that is, 4 when bit 2
is set and 0 otherwise, never 512 — and the PRG slice starts at byte
offset 16 plus 512 exactly when the trainer field is nonzero. -/
theorem claim_C9_amended (rom_data : List Nat) (hlen : 16 ≤ rom_data.length)
    (hm0 : rom_data.getD 0 0 = 0x4E) (hm1 : rom_data.getD 1 0 = 0x45)
    (hm2 : rom_data.getD 2 0 = 0x53) (hm3 : rom_data.getD 3 0 = 0x1A) :
    ∃ h, Header.parse rom_data = Except.ok h ∧
      h.trainer = rom_data.getD 6 0 &&& 4 ∧
      (h.trainer = 0 ∨ h.trainer = 4) ∧
      ((h.trainer ≠ 0) ↔ (rom_data.getD 6 0).testBit 2 = true) ∧
      ∃ r, Rom.init rom_data = Except.ok r ∧ r.header = h ∧
        r.prg_rom = (rom_data.drop (16 + if h.trainer ≠ 0 then 512 else 0)).take
          h.prg_rom_size := by
  have hlen16 : (rom_data.take 16).length = 16 := by
    rw [List.length_take]; omega
  have hg : ∀ i, i < 16 → (rom_data.take 16).getD i 0 = rom_data.getD i 0 :=
    fun i hi => getD_take_16 rom_data i hi
  have hparse : Header.parse rom_data = Except.ok
      { prg_banks := rom_data.getD 4 0,
        chr_banks := rom_data.getD 5 0,
        prg_rom_size := 16384 * rom_data.getD 4 0,
        chr_rom_size := 8192 * rom_data.getD 5 0,
        nt_mirroring := if rom_data.getD 6 0 &&& 0x01 = 1 then Mirroring.vertical
                        else Mirroring.horizontal,
        trainer := rom_data.getD 6 0 &&& 4,
        mapper_id := (rom_data.getD 7 0 &&& 0xF0) ||| (rom_data.getD 6 0 >>> 4) } := by
    rw [Header.parse]
    rw [hg 0 (by omega), hg 1 (by omega), hg 2 (by omega), hg 3 (by omega),
        hg 4 (by omega), hg 5 (by omega), hg 6 (by omega), hg 7 (by omega), hlen16]
    rw [if_neg (by omega),
        if_neg (not_not_intro ⟨hm0, hm1, hm2, hm3⟩),
        if_neg (by omega)]
  refine ⟨_, hparse, rfl, ?_, ?_, ?_⟩
  · rw [and_4_eq]
    cases (rom_data.getD 6 0).testBit 2 <;> simp
  · rw [and_4_eq]
    cases (rom_data.getD 6 0).testBit 2 <;> simp
  · simp only [Rom.init, hparse]
    refine ⟨_, rfl, rfl, ?_⟩
    simp only [Nat.add_sub_cancel_left]

/-- Claim C9, witness: a concrete 16 KiB-free ROM image with the
trainer bit clear parses with trainer 0 and PRG starting at offset 16. -/
theorem claim_C9_witness :
    ∃ h, Header.parse [0x4E, 0x45, 0x53, 0x1A, 0x00, 0x00, 0x00, 0x00,
        0x00, 0x00, 0x00, 0x00, 0x00, 0x00, 0x00, 0x00] = Except.ok h ∧
      h.trainer = 0 := by
  obtain ⟨h, hp, ht, -, -, -⟩ := claim_C9_amended
    [0x4E, 0x45, 0x53, 0x1A, 0x00, 0x00, 0x00, 0x00,
     0x00, 0x00, 0x00, 0x00, 0x00, 0x00, 0x00, 0x00]
    (by decide) (by decide) (by decide) (by decide) (by decide)
  exact ⟨h, hp, by rw [ht]; decide⟩

/-- Forcing the brk bit of the packed status byte is the same as or-ing
0x10 into it. -/
lemma CPUStatus.reg_brk_true (st : CPUStatus) :
    ({ st with brk := true } : CPUStatus).reg = st.reg ||| 0x10 := by
  obtain ⟨c, z, i, d, b, u, v, n⟩ := st
  cases c <;> cases z <;> cases i <;> cases d <;> cases b <;> cases u <;>
    cases v <;> cases n <;> decide

/-- Claim C10: for a CPU whose stack pointer is a byte, PHP succeeds,
pushes status | 0x10 (brk forced set, readable back at 0x0100 | s),
decrements s, and leaves the live status equal to the old status with
the brk flag cleared — in particular brk is 0 afterwards even when it
was 1 before, and every other status bit is unchanged. -/
theorem claim_C10_php (c : CPU) (hs0 : 0 ≤ c.s) (hs1 : c.s ≤ 0xFF)
    (hlen : c.bus.ram.length = 0x800) :
    ∃ c2, CPU.PHP c = Except.ok c2 ∧
      c2.status = { c.status with brk := false } ∧
      c2.status.brk = false ∧
      c2.s = c.s - 1 ∧
      CPUBus.read c2.bus (Int.lor (Int.ofNat 0x0100) c.s) =
        Except.ok (c.status.reg ||| 0x10) := by
  obtain ⟨n, hsn⟩ : ∃ n : Nat, c.s = Int.ofNat n :=
    ⟨c.s.toNat, (Int.toNat_of_nonneg hs0).symm⟩
  have hn : n ≤ 0xFF := by
    rw [hsn] at hs1
    exact Int.ofNat_le.mp hs1
  have hor_lt : 0x0100 ||| n < 0x200 := by
    have h9 := Nat.or_lt_two_pow (x := 0x0100) (y := n) (n := 9) (by decide) (by omega)
    simpa using h9
  have hrange : (0 : Int) ≤ Int.ofNat (0x0100 ||| n) ∧
      Int.ofNat (0x0100 ||| n) ≤ 0x1FFF := by
    refine ⟨Int.ofNat_nonneg _, ?_⟩
    have hle : (0x0100 ||| n : Nat) ≤ 0x1FFF := by omega
    exact Int.ofNat_le.mpr hle
  have hidx : (0x0100 ||| n) &&& RAM_ADDRESS_MASK < c.bus.ram.length := by
    have hle : (0x0100 ||| n) &&& RAM_ADDRESS_MASK ≤ RAM_ADDRESS_MASK :=
      Nat.and_le_right
    have hm : RAM_ADDRESS_MASK < 0x800 := by decide
    omega
  have hwrite : c.bus.write (Int.lor (Int.ofNat 0x0100) c.s)
      ({ c.status with brk := true } : CPUStatus).reg =
      Except.ok ⟨c.bus.ram.set ((0x0100 ||| n) &&& RAM_ADDRESS_MASK)
        ({ c.status with brk := true } : CPUStatus).reg⟩ := by
    rw [hsn, int_lor_ofNat, CPUBus.write, if_pos hrange, int_land_ofNat, int_toNat_ofNat]
  have hphp : CPU.PHP c = Except.ok
      { c with bus := ⟨c.bus.ram.set ((0x0100 ||| n) &&& RAM_ADDRESS_MASK)
                        ({ c.status with brk := true } : CPUStatus).reg⟩,
               s := c.s - 1,
               status := { c.status with brk := false } } := by
    simp only [CPU.PHP, CPU.push_to_stack, hwrite]
  refine ⟨_, hphp, rfl, rfl, rfl, ?_⟩
  rw [hsn, int_lor_ofNat, CPUBus.read, if_pos hrange, int_land_ofNat, int_toNat_ofNat]
  simp only [List.getD_eq_getElem?_getD]
  rw [List.getElem?_set_eq_of_lt _ hidx]
  rw [CPUStatus.reg_brk_true]
  rfl

/-- Claim C10, witness: PHP at a concrete CPU with brk initially set
and stack pointer 0xFD. -/
theorem claim_C10_witness :
    ∃ c2, CPU.PHP { CPU.zeroed with s := 0xFD, status := CPUStatus.ofReg 0xFF } =
        Except.ok c2 ∧
      c2.status.brk = false := by
  obtain ⟨c2, hphp, -, hbrk, -, -⟩ := claim_C10_php
    { CPU.zeroed with s := 0xFD, status := CPUStatus.ofReg 0xFF }
    (by decide) (by decide) (by simp [CPU.zeroed, CPUBus.init])
  exact ⟨c2, hphp, hbrk⟩

end Purenes
